import Mathlib

/-!
Verification development for the connect-sdk-typescript license-enforcement SDK.

The definitions below are a shallow embedding of the TypeScript sources:
  - src/license.ts   (verifyLicenseToken, buildSignalResult, buildBlockResult,
                      generateLicenseLink, stripTrailingSlash)
  - src/jwks.ts      (fetchAndCacheJwks with the 48h TTL cache, clearJwksCache,
                      JwksKeyNotFoundError)
  - src/types.ts     (SupertabConnect.handleRequest, EnforcementMode,
                      HandlerAction, HandlerResult, LicenseTokenInvalidReason)
  - src/bots.ts      (defaultBotDetector)

External collaborators (the jose JWT primitives, the network fetch, the
cryptographic signature check, the clock) are modelled as explicit inputs:
the outcome of decodeProtectedHeader and decodeJwt is part of the token
model, the outcome of a network fetch is an Except value, the outcome of
the cryptographic verification is an oracle function, and the clock is a
Nat parameter.  Exception-raising paths of the TypeScript code are modelled
with Option and Except, so every embedded function is total.
-/

namespace ConnectSdk

/-! ## String helpers

JavaScript string primitives used by the source, modelled over the
character list of a Lean String.  JS operates on UTF-16 code units; all
strings relevant to the claims are ASCII, where the two views coincide.
-/

/-- JS String.prototype.startsWith: the second argument is an initial
segment of the first (here on char lists, witness list first). -/
def hasLead : List Char → List Char → Bool
  | _, [] => true
  | [], _ :: _ => false
  | c :: cs, d :: ds => c == d && hasLead cs ds

/-- JS String.prototype.startsWith for the embedded strings. -/
def strStarts (s pre : String) : Bool := hasLead s.toList pre.toList

/-- JS String.prototype.includes on char lists. -/
def listIncl : List Char → List Char → Bool
  | [], sub => sub.isEmpty
  | c :: rest, sub => hasLead (c :: rest) sub || listIncl rest sub

/-- JS String.prototype.includes for the embedded strings. -/
def strIncl (s sub : String) : Bool := listIncl s.toList sub.toList

/-- JS String.prototype.toLowerCase (ASCII part, which is all the source
compares). -/
def toLowerStr (s : String) : String := String.mk (s.toList.map Char.toLower)

/-- Whitespace recognised by JS String.prototype.trim (ASCII part). -/
def jsWhitespace (c : Char) : Bool :=
  c == ' ' || c == '\t' || c == '\n' || c == '\r' || c == '\x0b' || c == '\x0c'

/-- JS String.prototype.trim on char lists. -/
def trimList (l : List Char) : List Char :=
  ((l.dropWhile jsWhitespace).reverse.dropWhile jsWhitespace).reverse

/-- src/license.ts stripTrailingSlash:
value.trim().replace(slash-run-at-end regex, ""). -/
def stripTrailingSlash (value : String) : String :=
  String.mk (((trimList value.toList).reverse.dropWhile (fun c => c == '/')).reverse)

/-! ## Data model (src/types.ts) -/

/-- src/types.ts LicenseTokenInvalidReason (enum constructor names). -/
inductive LicenseTokenInvalidReason
  | MISSING_TOKEN
  | INVALID_HEADER
  | INVALID_ALG
  | INVALID_PAYLOAD
  | INVALID_ISSUER
  | SIGNATURE_VERIFICATION_FAILED
  | EXPIRED
  | INVALID_AUDIENCE
  | SERVER_ERROR
deriving DecidableEq, Repr

/-- The string value of each enum member, as declared in src/types.ts. -/
def reasonValue : LicenseTokenInvalidReason → String
  | .MISSING_TOKEN => "missing_license_token"
  | .INVALID_HEADER => "invalid_license_header"
  | .INVALID_ALG => "invalid_license_algorithm"
  | .INVALID_PAYLOAD => "invalid_license_payload"
  | .INVALID_ISSUER => "invalid_license_issuer"
  | .SIGNATURE_VERIFICATION_FAILED => "license_signature_verification_failed"
  | .EXPIRED => "license_token_expired"
  | .INVALID_AUDIENCE => "invalid_license_audience"
  | .SERVER_ERROR => "server_error"

/-- Decoded JWT protected header (jose JWTHeaderParameters, the fields the
source reads: alg and kid). -/
structure JWTHeader where
  alg : String
  kid : Option String
deriving DecidableEq, Repr

/-- A JSON value sitting in an aud array entry: a string, or anything else
(the source filters array entries with typeof entry === "string"). -/
inductive AudEntry
  | str (s : String)
  | nonString
deriving DecidableEq, Repr

/-- The aud claim: absent, a single string, an array, or some other JSON
value (the source treats the last case like absent). -/
inductive AudClaim
  | absent
  | single (s : String)
  | arr (entries : List AudEntry)
  | otherJson
deriving DecidableEq, Repr

/-- Decoded JWT payload (the claims the source reads). -/
structure JWTPayload where
  iss : Option String
  aud : AudClaim
  license_id : Option String
deriving DecidableEq, Repr

/-- A token as seen through the jose decode primitives: the raw string plus
the outcome of decodeProtectedHeader and decodeJwt on it (none models the
decode call throwing). -/
structure TokenModel where
  raw : String
  header : Option JWTHeader
  payload : Option JWTPayload
deriving DecidableEq, Repr

/-- One key record of the fetched key set (the source only reads kid). -/
structure Jwk where
  kid : Option String
deriving DecidableEq, Repr

/-- A fetched key set: jwks.keys. -/
structure Jwks where
  keys : List Jwk
deriving DecidableEq, Repr

/-- Outcome of the cryptographic jwtVerify call once a key has been found:
success with the verified payload, or a thrown Error carrying a message
(the source classifies by whether the message includes "exp"). -/
inductive SigOutcome
  | ok (verifiedPayload : JWTPayload)
  | err (message : String)
deriving DecidableEq, Repr

/-- src/types.ts LicenseTokenVerificationResult (tagged union). -/
inductive VerificationResult
  | valid (licenseId : Option String) (payload : JWTPayload)
  | invalid (reason : LicenseTokenInvalidReason) (licenseId : Option String)
deriving DecidableEq, Repr

/-! ## Verification engine (src/license.ts verifyLicenseToken) -/

/-- src/license.ts lines 99-103: the aud claim as a list of string
candidates (array entries filtered to strings, a scalar string wrapped,
anything else empty). -/
def audienceValues : AudClaim → List String
  | .arr entries => entries.filterMap (fun e => match e with
      | .str s => some s
      | .nonString => none)
  | .single s => [s]
  | .absent => []
  | .otherJson => []

/-- src/license.ts lines 84-97, issuer stage: normalizedIssuer is computed
only for a truthy issuer, and the check fails when normalizedIssuer is
falsy (absent issuer, empty issuer, or issuer that normalizes to the empty
string) or does not start with the normalized base URL. -/
def issuerAccepted (iss : Option String) (supertabBaseUrl : String) : Bool :=
  let normalizedBaseUrl := stripTrailingSlash supertabBaseUrl
  match iss with
  | none => false
  | some issuer =>
    if issuer = "" then false
    else
      let normalizedIssuer := stripTrailingSlash issuer
      if normalizedIssuer = "" then false
      else strStarts normalizedIssuer normalizedBaseUrl

/-- src/license.ts lines 105-110, audience stage: some candidate, after
trailing-slash trimming, is nonempty and a prefix of the trimmed request
URL (the falsy check rejects candidates that normalize to ""). -/
def audienceMatches (aud : AudClaim) (requestUrl : String) : Bool :=
  let requestUrlNormalized := stripTrailingSlash requestUrl
  (audienceValues aud).any (fun value =>
    let normalizedAudience := stripTrailingSlash value
    if normalizedAudience = "" then false
    else strStarts requestUrlNormalized normalizedAudience)

/-- src/license.ts lines 160-178: classification of an error thrown by
jwtVerify — message includes "exp" means EXPIRED, anything else means
SIGNATURE_VERIFICATION_FAILED. -/
def classifyVerifyError (message : String) (licenseId : Option String) :
    VerificationResult :=
  if strIncl message "exp" then .invalid .EXPIRED licenseId
  else .invalid .SIGNATURE_VERIFICATION_FAILED licenseId

/-- JS template interpolation of a possibly-undefined kid. -/
def kidText : Option String → String
  | some kid => kid
  | none => "undefined"

/-- src/license.ts verifyLicenseToken (the current revision, lines 32-179).
The network fetch outcome (fetchPlatformJwks) is the jwksFetch argument;
the cryptographic verification outcome for the key the lookup returns is
the sigVerify oracle.  The getKey callback's lookup miss throws an Error
whose message is "No matching platform key found: kid", which the catch
block then classifies like any other verification error. -/
def verifyLicenseToken (t : TokenModel) (requestUrl supertabBaseUrl : String)
    (jwksFetch : Except String Jwks) (sigVerify : Jwk → SigOutcome) :
    VerificationResult :=
  if t.raw = "" then .invalid .MISSING_TOKEN none
  else
    match t.header with
    | none => .invalid .INVALID_HEADER none
    | some header =>
      if header.alg ≠ "ES256" then .invalid .INVALID_ALG none
      else
        match t.payload with
        | none => .invalid .INVALID_PAYLOAD none
        | some payload =>
          let licenseId := payload.license_id
          if ¬ issuerAccepted payload.iss supertabBaseUrl then
            .invalid .INVALID_ISSUER licenseId
          else if ¬ audienceMatches payload.aud requestUrl then
            .invalid .INVALID_AUDIENCE licenseId
          else
            match jwksFetch with
            | .error _ => .invalid .SERVER_ERROR licenseId
            | .ok jwks =>
              match jwks.keys.find? (fun key => key.kid == header.kid) with
              | none =>
                classifyVerifyError
                  ("No matching platform key found: " ++ kidText header.kid)
                  licenseId
              | some jwk =>
                match sigVerify jwk with
                | .ok verifiedPayload => .valid licenseId verifiedPayload
                | .err message => classifyVerifyError message licenseId

/-! ## Response building (src/license.ts) -/

/-- The scheme part (including the colon) of an absolute URL, as exposed by
new URL(u).protocol.  Models a well-formed absolute URL; no claim depends
on the exact link value. -/
def urlProtocol (url : String) : String :=
  String.mk ((url.toList.takeWhile (fun c => c != ':')) ++ [':'])

/-- The host part (hostname and optional port) of an absolute URL, as
exposed by new URL(u).host. -/
def urlHost (url : String) : String :=
  let afterScheme := (url.toList.dropWhile (fun c => c != ':')).drop 3
  String.mk (afterScheme.takeWhile (fun c => c != '/' && c != '?' && c != '#'))

/-- src/license.ts generateLicenseLink: protocol//host/license.xml derived
from the request URL. -/
def generateLicenseLink (requestUrl : String) : String :=
  urlProtocol requestUrl ++ "//" ++ urlHost requestUrl ++ "/license.xml"

/-- src/types.ts HandlerResult: Allow optionally carrying headers, or Block
with status, body and headers.  An Allow with no headers field is modelled
as the empty header list. -/
inductive HandlerResult
  | allow (headers : List (String × String))
  | block (status : Nat) (body : String) (headers : List (String × String))
deriving DecidableEq, Repr

/-- Whether a HandlerResult is the Allow action. -/
def HandlerResult.isAllow : HandlerResult → Bool
  | .allow _ => true
  | .block _ _ _ => false

/-- The HTTP status a HandlerResult carries (Block only). -/
def HandlerResult.statusOf : HandlerResult → Option Nat
  | .allow _ => none
  | .block status _ _ => some status

/-- Look up a header value on a HandlerResult. -/
def HandlerResult.headerVal (r : HandlerResult) (name : String) : Option String :=
  let hs := match r with
    | .allow headers => headers
    | .block _ _ headers => headers
  match hs.find? (fun h => h.1 == name) with
  | some h => some h.2
  | none => none

/-- src/license.ts buildSignalResult: Allow plus the advisory Link,
X-RSL-Status and X-RSL-Reason headers. -/
def buildSignalResult (requestUrl : String) : HandlerResult :=
  let licenseLink := generateLicenseLink requestUrl
  .allow
    [("Link", "<" ++ licenseLink ++ ">; rel=\"license\"; type=\"application/rsl+xml\""),
     ("X-RSL-Status", "token_required"),
     ("X-RSL-Reason", "missing")]

/-- src/license.ts buildBlockResult (current revision, lines 206-289): the
switch on the reason string (the TS parameter has type
LicenseTokenInvalidReason | string; the enum members are string-valued, so
the switch compares strings) producing status, rslError and
errorDescription, then the Block result with body, WWW-Authenticate and
Link headers. -/
def buildBlockResult (reason : String) (requestUrl : String) : HandlerResult :=
  let t : Nat × String × String :=
    if reason = "missing_license_token" then
      (401, "invalid_request", "Authorization header missing or malformed")
    else if reason = "invalid_license_algorithm" then
      (401, "invalid_request", "Unsupported token algorithm")
    else if reason = "license_token_expired" then
      (401, "invalid_token", "The license token has expired")
    else if reason = "license_signature_verification_failed" then
      (401, "invalid_token", "The license token signature is invalid")
    else if reason = "invalid_license_header" then
      (401, "invalid_token", "The license token header is malformed")
    else if reason = "invalid_license_payload" then
      (401, "invalid_token", "The license token payload is malformed")
    else if reason = "invalid_license_issuer" then
      (401, "invalid_token", "The license token issuer is not recognized")
    else if reason = "invalid_license_audience" then
      (403, "insufficient_scope", "The license does not grant access to this resource")
    else if reason = "server_error" then
      (503, "server_error", "The server encountered an error validating the license")
    else
      (401, "invalid_token", "License token missing, expired, revoked, or malformed")
  let licenseLink := generateLicenseLink requestUrl
  .block t.1
    ("Access to this resource requires a valid license token. Error: "
      ++ t.2.1 ++ " - " ++ t.2.2)
    [("Content-Type", "text/plain; charset=UTF-8"),
     ("WWW-Authenticate",
      "License error=\"" ++ t.2.1 ++ "\", error_description=\"" ++ t.2.2 ++ "\""),
     ("Link", "<" ++ licenseLink ++ ">; rel=\"license\"; type=\"application/rsl+xml\"")]

/-! ## Header sanitization (modelled from the spec)

The SupertabConnect class in src/types.ts imports a buildBlockResult taking
a reason, an upstream error description and the request URL, and imports a
verifyAndRecordEvent whose results carry an error description; that
revision of src/license.ts is missing from src (the in-tree revision takes
no description argument).  Per spec section 4.4 the missing builder embeds
a sanitized description in the WWW-Authenticate header. -/

/-- Modelled from the spec: sanitization strips CR and LF characters. -/
def stripCRLFList (l : List Char) : List Char :=
  l.filter (fun c => c != '\r' && c != '\n')

/-- Modelled from the spec: sanitization escapes backslash and double-quote
characters, prefixing each with a backslash. -/
def escapeChars : List Char → List Char
  | [] => []
  | c :: rest =>
    if c = '\\' ∨ c = '"' then '\\' :: c :: escapeChars rest
    else c :: escapeChars rest

/-- Modelled from the spec: the description sanitizer of the missing
response-builder revision — strip CR/LF, escape backslash and quote. -/
def sanitizeHeaderText (s : String) : String :=
  String.mk (escapeChars (stripCRLFList s.toList))

/-- Modelled from the spec: the missing buildBlockResult revision (the one
src/types.ts imports, signature reason/error/requestUrl).  Status and
machine error code come from the fixed table of spec section 4.4; the
upstream description is sanitized and embedded in the WWW-Authenticate
header and echoed in the body. -/
def blockStatusCode (reason : String) : Nat × String :=
  if reason = "missing_license_token" then (401, "invalid_request")
  else if reason = "invalid_license_algorithm" then (401, "invalid_request")
  else if reason = "license_token_expired" then (401, "invalid_token")
  else if reason = "license_signature_verification_failed" then (401, "invalid_token")
  else if reason = "invalid_license_header" then (401, "invalid_token")
  else if reason = "invalid_license_payload" then (401, "invalid_token")
  else if reason = "invalid_license_issuer" then (401, "invalid_token")
  else if reason = "invalid_license_audience" then (403, "insufficient_scope")
  else if reason = "server_error" then (503, "server_error")
  else (401, "invalid_token")

/-- Modelled from the spec: the missing buildBlockResult revision (the one
src/types.ts imports, signature reason/error/requestUrl).  Status and
machine error code come from the fixed table of spec section 4.4; the
upstream description is sanitized and embedded in the WWW-Authenticate
header and echoed in the body. -/
def buildBlockResultDescribed (reason : String) (description : String)
    (requestUrl : String) : HandlerResult :=
  let t : Nat × String := blockStatusCode reason
  let licenseLink := generateLicenseLink requestUrl
  let sanitized := sanitizeHeaderText description
  .block t.1
    ("Access to this resource requires a valid license token. Error: "
      ++ t.2 ++ " - " ++ sanitized)
    [("Content-Type", "text/plain; charset=UTF-8"),
     ("WWW-Authenticate",
      "License error=\"" ++ t.2 ++ "\", error_description=\"" ++ sanitized ++ "\""),
     ("Link", "<" ++ licenseLink ++ ">; rel=\"license\"; type=\"application/rsl+xml\"")]

/-! ## Request orchestrator (src/types.ts SupertabConnect.handleRequest) -/

/-- src/types.ts EnforcementMode. -/
inductive EnforcementMode
  | DISABLED
  | SOFT
  | STRICT
deriving DecidableEq, Repr

/-- The inbound request as read by handleRequest and defaultBotDetector:
the headers they get (none models a header that is absent, giving null),
the URL, and the optional Cloudflare bot-management score. -/
structure RequestModel where
  authorizationHeader : Option String
  url : String
  userAgentHeader : Option String
  acceptHeader : Option String
  secChUaHeader : Option String
  acceptLanguageHeader : Option String
  cfBotScore : Option Int
deriving DecidableEq, Repr

/-- Outcome of the verifyAndRecordEvent call (verification plus analytics
event); its result carries a reason string and an error description when
invalid, per the LicenseTokenVerificationResult shape in src/types.ts. -/
inductive VerifyOutcome
  | ok
  | bad (reason : String) (error : String)
deriving DecidableEq, Repr

/-- Instrumented outcome of handleRequest: the returned HandlerResult plus
which collaborators the control flow invoked (verifyAndRecordEvent performs
both the verification and the event recording; the bot detector is invoked
only through the optional call this.botDetector?.(request, ctx)). -/
structure HandleOutcome where
  result : HandlerResult
  verifyInvoked : Bool
  botDetectorInvoked : Bool
deriving DecidableEq, Repr

/-- src/types.ts handleRequest lines 312-313 plus the if (token) truthiness
test: a token is present exactly when the Authorization header starts with
"License " and the slice after it is nonempty. -/
def licenseTokenPresent (req : RequestModel) : Bool :=
  let auth := req.authorizationHeader.getD ""
  strStarts auth "License " && auth.length > 8

/-- src/types.ts SupertabConnect.handleRequest (lines 311-361).  The
enforcement mode and optional bot detector are the instance configuration;
the verifyAndRecordEvent outcome for the extracted token is the
verifyOutcome oracle. -/
def handleRequest (enforcement : EnforcementMode)
    (botDetector : Option (RequestModel → Bool)) (req : RequestModel)
    (verifyOutcome : VerifyOutcome) : HandleOutcome :=
  if licenseTokenPresent req then
    if enforcement = EnforcementMode.DISABLED then
      { result := .allow [], verifyInvoked := false, botDetectorInvoked := false }
    else
      match verifyOutcome with
      | .ok =>
        { result := .allow [], verifyInvoked := true, botDetectorInvoked := false }
      | .bad reason error =>
        { result := buildBlockResultDescribed reason error req.url,
          verifyInvoked := true, botDetectorInvoked := false }
  else
    let isBot := match botDetector with
      | some f => f req
      | none => false
    let consulted := botDetector.isSome
    if isBot = false then
      { result := .allow [], verifyInvoked := false, botDetectorInvoked := consulted }
    else
      match enforcement with
      | .STRICT =>
        { result := buildBlockResultDescribed "missing_license_token"
            "Authorization header missing or malformed" req.url,
          verifyInvoked := false, botDetectorInvoked := consulted }
      | .SOFT =>
        { result := buildSignalResult req.url,
          verifyInvoked := false, botDetectorInvoked := consulted }
      | .DISABLED =>
        { result := .allow [], verifyInvoked := false, botDetectorInvoked := consulted }

/-! ## Default bot detector (src/bots.ts) -/

/-- src/bots.ts: the known-bot user-agent substrings. -/
def botList : List String :=
  ["chatgpt-user", "perplexitybot", "gptbot", "anthropic-ai", "ccbot",
   "claude-web", "claudebot", "cohere-ai", "youbot", "diffbot",
   "oai-searchbot", "meta-externalagent", "timpibot", "amazonbot",
   "bytespider", "perplexity-user", "googlebot", "bot", "curl", "wget"]

/-- JS falsiness of a nullable string header value. -/
def headerFalsy : Option String → Bool
  | none => true
  | some s => s == ""

/-- src/bots.ts defaultBotDetector: user-agent substring match, headless
indicators, missing accept and accept-language headers, Cloudflare bot
score below 30, with the Safari/Mozilla special case returning false when
the only headless indicator is a missing sec-ch-ua header. -/
def defaultBotDetector (req : RequestModel) : Bool :=
  let userAgent := req.userAgentHeader.getD ""
  let accept := req.acceptHeader.getD ""
  let lowerCaseUserAgent := toLowerStr userAgent
  let botUaMatch := botList.any (fun bot => strIncl lowerCaseUserAgent bot)
  let secChUaMissing := headerFalsy req.secChUaHeader
  let headlessIndicators :=
    strIncl lowerCaseUserAgent "headless"
      || strIncl lowerCaseUserAgent "puppeteer"
      || secChUaMissing
  let isBrowserMissingSecChUa :=
    !strIncl lowerCaseUserAgent "headless"
      && !strIncl lowerCaseUserAgent "puppeteer"
      && secChUaMissing
  let missingHeaders := accept == "" || headerFalsy req.acceptLanguageHeader
  let lowBotScore := match req.cfBotScore with
    | some n => n < 30
    | none => false
  if (strIncl lowerCaseUserAgent "safari" || strIncl lowerCaseUserAgent "mozilla")
      && (headlessIndicators && isBrowserMissingSecChUa) then
    false
  else
    botUaMatch || headlessIndicators || missingHeaders || lowBotScore

/-! ## Key-set cache (src/jwks.ts, TTL revision) -/

/-- src/jwks.ts JWKS_CACHE_TTL_MS = 48 * 60 * 60 * 1000 (48 hours). -/
def JWKS_CACHE_TTL_MS : Nat := 48 * 60 * 60 * 1000

/-- src/jwks.ts JwksCacheEntry: data plus fetch timestamp (ms). -/
structure JwksCacheEntry where
  data : Jwks
  cachedAt : Nat
deriving DecidableEq, Repr

/-- The module-level jwksCache Map, modelled as an association list. -/
abbrev JwksCacheState := List (String × JwksCacheEntry)

/-- Map.get. -/
def cacheGet (cache : JwksCacheState) (key : String) : Option JwksCacheEntry :=
  match List.find? (fun e => e.1 == key) cache with
  | some e => some e.2
  | none => none

/-- Map.set: replace the entry for the key, or append a new one. -/
def cacheSet (cache : JwksCacheState) (key : String) (entry : JwksCacheEntry) :
    JwksCacheState :=
  match cache with
  | [] => [(key, entry)]
  | e :: rest =>
    if e.1 = key then (key, entry) :: rest
    else e :: cacheSet rest key entry

/-- Instrumented outcome of fetchAndCacheJwks: the returned (or thrown)
result, the cache afterwards, and whether the network fetch ran. -/
structure JwksFetchTrace where
  outcome : Except String Jwks
  cache : JwksCacheState
  fetchInvoked : Bool

/-- src/jwks.ts fetchAndCacheJwks (TTL revision, lines 119-147): return the
cached data when the entry is fresh (now - cachedAt < TTL); otherwise run
the fetch, store the result with the current timestamp on success, and
propagate a fetch error without caching.  now - cachedAt is Nat
subtraction; as in JS (where a negative difference is < TTL), a cachedAt
in the future counts as fresh. -/
def fetchAndCacheJwks (cache : JwksCacheState) (cacheKey : String) (now : Nat)
    (fetchResult : Except String Jwks) : JwksFetchTrace :=
  let doFetch : JwksFetchTrace :=
    match fetchResult with
    | .ok jwksData =>
      { outcome := .ok jwksData,
        cache := cacheSet cache cacheKey { data := jwksData, cachedAt := now },
        fetchInvoked := true }
    | .error e =>
      { outcome := .error e, cache := cache, fetchInvoked := true }
  match cacheGet cache cacheKey with
  | some cached =>
    if now - cached.cachedAt < JWKS_CACHE_TTL_MS then
      { outcome := .ok cached.data, cache := cache, fetchInvoked := false }
    else doFetch
  | none => doFetch

/-- src/jwks.ts clearJwksCache: jwksCache.clear(). -/
def clearJwksCache : JwksCacheState := []

/-! ## Stale-key retry (modelled from the spec)

src/jwks.ts declares JwksKeyNotFoundError, the distinguished "key not
found" condition of spec section 4.3 step 8, but its user — the license.ts
revision whose signature stage invalidates the cache and retries once on
that condition (spec section 4.3 step 9, property P7) — is missing from
src (the in-tree verifyLicenseToken throws a plain Error and never
retries).  The definitions below model that missing signature stage from
the spec, on top of the in-tree cache embedding above. -/

/-- Modelled from the spec: outcome of one key-retrieval-plus-verification
attempt (steps 7-8): key-set fetch failure, JwksKeyNotFoundError for the
token's kid, or the jwtVerify outcome for the key found. -/
inductive AttemptOutcome
  | fetchFailed (e : String)
  | keyNotFound (kid : Option String)
  | sigResult (o : SigOutcome)
deriving DecidableEq, Repr

/-- Modelled from the spec: steps 7-8 — get-or-fetch the platform key set
through the cache, look up the token header's kid, and on a hit delegate to
the cryptographic verification oracle. -/
def verifyAttempt (cache : JwksCacheState) (now : Nat) (kid : Option String)
    (fetchResult : Except String Jwks) (sigVerify : Jwk → SigOutcome) :
    AttemptOutcome × JwksCacheState :=
  let tr := fetchAndCacheJwks cache "platform_jwks" now fetchResult
  match tr.outcome with
  | .error e => (.fetchFailed e, tr.cache)
  | .ok jwks =>
    match jwks.keys.find? (fun key => key.kid == kid) with
    | none => (.keyNotFound kid, tr.cache)
    | some jwk => (.sigResult (sigVerify jwk), tr.cache)

/-- Modelled from the spec: classification of an attempt outcome after the
retry budget is spent — fetch failure is SERVER_ERROR, a verification
error is EXPIRED when its message references the expiration claim and
SIGNATURE_VERIFICATION_FAILED otherwise, and a key-not-found condition
that survives the retry classifies as a signature failure. -/
def classifyAttempt (o : AttemptOutcome) (licenseId : Option String) :
    VerificationResult :=
  match o with
  | .fetchFailed _ => .invalid .SERVER_ERROR licenseId
  | .keyNotFound _ => .invalid .SIGNATURE_VERIFICATION_FAILED licenseId
  | .sigResult (.ok verifiedPayload) => .valid licenseId verifiedPayload
  | .sigResult (.err message) => classifyVerifyError message licenseId

/-- Instrumented outcome of the retrying signature stage: the final
verification result, the cache afterwards, and how many
key-retrieval-plus-verification attempts ran. -/
structure RetryTrace where
  result : VerificationResult
  cache : JwksCacheState
  attempts : Nat
deriving DecidableEq, Repr

/-- Modelled from the spec: step 9 — if the first attempt fails with the
key-not-found condition, invalidate the whole cache (clearJwksCache),
rerun steps 7-8 exactly once (the retry performs a fresh fetch), and
classify whatever the retry produces with no further retries.  fetch1 and
fetch2 are the outcomes the network would give for the first and second
fetch. -/
def verifySignatureWithRetry (cache : JwksCacheState) (now : Nat)
    (licenseId : Option String) (kid : Option String)
    (fetch1 fetch2 : Except String Jwks) (sigVerify : Jwk → SigOutcome) :
    RetryTrace :=
  match verifyAttempt cache now kid fetch1 sigVerify with
  | (.keyNotFound _, _) =>
    let retry := verifyAttempt clearJwksCache now kid fetch2 sigVerify
    { result := classifyAttempt retry.1 licenseId, cache := retry.2, attempts := 2 }
  | (firstOutcome, cacheAfter) =>
    { result := classifyAttempt firstOutcome licenseId, cache := cacheAfter,
      attempts := 1 }

/-! ## Helper lemmas -/

/-- hasLead accepts the empty witness list. -/
theorem hasLead_nil (l : List Char) : hasLead l [] = true := by
  cases l <;> rfl

/-- strStarts accepts the empty string against any string. -/
theorem strStarts_empty (s : String) : strStarts s "" = true := by
  unfold strStarts
  exact hasLead_nil s.toList

/-- The audience stage succeeds exactly when some string candidate
normalizes to a nonempty string that leads the normalized request URL. -/
theorem audienceMatches_iff (aud : AudClaim) (requestUrl : String) :
    audienceMatches aud requestUrl = true ↔
      ∃ v ∈ audienceValues aud, stripTrailingSlash v ≠ "" ∧
        strStarts (stripTrailingSlash requestUrl) (stripTrailingSlash v) = true := by
  unfold audienceMatches
  rw [List.any_eq_true]
  constructor
  · rintro ⟨v, hv, hpred⟩
    refine ⟨v, hv, ?_⟩
    by_cases hz : stripTrailingSlash v = ""
    · rw [if_pos hz] at hpred
      cases hpred
    · rw [if_neg hz] at hpred
      exact ⟨hz, hpred⟩
  · rintro ⟨v, hv, hz, hs⟩
    refine ⟨v, hv, ?_⟩
    rw [if_neg hz]
    exact hs

/-! ## Claims -/

/-- Claim C7: for every non-empty token whose header decodes successfully
and whose header algorithm is not ES256, verifyLicenseToken returns
InvalidAlgorithm, regardless of payload well-formedness, fetch outcome and
signature outcome — the algorithm check precedes payload decoding and
signature verification. -/
theorem c7_algorithm_allow_list (t : TokenModel)
    (requestUrl supertabBaseUrl : String) (jwksFetch : Except String Jwks)
    (sigVerify : Jwk → SigOutcome) (h : JWTHeader)
    (hraw : t.raw ≠ "") (hhd : t.header = some h) (halg : h.alg ≠ "ES256") :
    verifyLicenseToken t requestUrl supertabBaseUrl jwksFetch sigVerify =
      .invalid .INVALID_ALG none := by
  simp [verifyLicenseToken, hraw, hhd, halg]

def tokRs256 : TokenModel :=
  { raw := "t",
    header := some { alg := "RS256", kid := some "k1" },
    payload := some { iss := some "https://api-connect.supertab.co",
                      aud := .single "https://site.example",
                      license_id := some "L1" } }

def sigAlwaysOk : Jwk → SigOutcome :=
  fun _ => .ok { iss := none, aud := .absent, license_id := none }

theorem c7_witness :
    verifyLicenseToken tokRs256 "https://site.example/page"
        "https://api-connect.supertab.co"
        (.ok { keys := [{ kid := some "k1" }] }) sigAlwaysOk =
      .invalid .INVALID_ALG none :=
  c7_algorithm_allow_list tokRs256 "https://site.example/page"
    "https://api-connect.supertab.co"
    (.ok { keys := [{ kid := some "k1" }] }) sigAlwaysOk
    { alg := "RS256", kid := some "k1" } (by decide) rfl (by decide)

/-- Claim C4: verifyLicenseToken always returns a tagged result (every
exception path of the source is caught and translated, which the embedding
reflects by being a total function into the tagged union); in particular,
whenever the pipeline reaches the key-set fetch and the fetch fails, the
result is the ServerError reason (with the extracted license id), distinct
from the token-shape reasons. -/
theorem c4_no_raise_server_error :
    (∀ (t : TokenModel) (requestUrl supertabBaseUrl : String)
        (jwksFetch : Except String Jwks) (sigVerify : Jwk → SigOutcome),
      (∃ licenseId payload, verifyLicenseToken t requestUrl supertabBaseUrl
          jwksFetch sigVerify = .valid licenseId payload) ∨
      (∃ reason licenseId, verifyLicenseToken t requestUrl supertabBaseUrl
          jwksFetch sigVerify = .invalid reason licenseId)) ∧
    (∀ (t : TokenModel) (requestUrl supertabBaseUrl message : String)
        (sigVerify : Jwk → SigOutcome) (h : JWTHeader) (p : JWTPayload),
      t.raw ≠ "" → t.header = some h → h.alg = "ES256" → t.payload = some p →
      issuerAccepted p.iss supertabBaseUrl = true →
      audienceMatches p.aud requestUrl = true →
      verifyLicenseToken t requestUrl supertabBaseUrl (.error message) sigVerify =
        .invalid .SERVER_ERROR p.license_id) := by
  constructor
  · intro t requestUrl supertabBaseUrl jwksFetch sigVerify
    cases hres : verifyLicenseToken t requestUrl supertabBaseUrl jwksFetch sigVerify with
    | valid licenseId payload => exact Or.inl ⟨licenseId, payload, rfl⟩
    | invalid reason licenseId => exact Or.inr ⟨reason, licenseId, rfl⟩
  · intro t requestUrl supertabBaseUrl message sigVerify h p hraw hhd halg hp hiss haud
    simp [verifyLicenseToken, hraw, hhd, halg, hp, hiss, haud]

def tokWellFormed : TokenModel :=
  { raw := "t",
    header := some { alg := "ES256", kid := some "k1" },
    payload := some { iss := some "https://api-connect.supertab.co/issuer",
                      aud := .single "https://site.example",
                      license_id := some "L1" } }

theorem c4_witness :
    verifyLicenseToken tokWellFormed "https://site.example/page"
        "https://api-connect.supertab.co" (.error "fetch failed: 503") sigAlwaysOk =
      .invalid .SERVER_ERROR (some "L1") :=
  c4_no_raise_server_error.2 tokWellFormed "https://site.example/page"
    "https://api-connect.supertab.co" "fetch failed: 503" sigAlwaysOk
    { alg := "ES256", kid := some "k1" }
    { iss := some "https://api-connect.supertab.co/issuer",
      aud := .single "https://site.example", license_id := some "L1" }
    (by decide) rfl rfl rfl (by decide) (by decide)

/-- Claim C6: buildBlockResult realizes exactly the fixed status and
machine-error-code table: MissingToken and InvalidAlgorithm give 401
invalid_request; Expired, SignatureVerificationFailed, InvalidHeader,
InvalidPayload and InvalidIssuer give 401 invalid_token; InvalidAudience
gives 403 insufficient_scope; ServerError gives 503 server_error; any
unrecognized reason string gives 401 invalid_token.  The machine error
code is read off the WWW-Authenticate challenge the result carries. -/
theorem c6_response_table (url : String) :
    ((buildBlockResult "missing_license_token" url).statusOf = some 401 ∧
      (buildBlockResult "missing_license_token" url).headerVal "WWW-Authenticate" =
        some "License error=\"invalid_request\", error_description=\"Authorization header missing or malformed\"") ∧
    ((buildBlockResult "invalid_license_algorithm" url).statusOf = some 401 ∧
      (buildBlockResult "invalid_license_algorithm" url).headerVal "WWW-Authenticate" =
        some "License error=\"invalid_request\", error_description=\"Unsupported token algorithm\"") ∧
    ((buildBlockResult "license_token_expired" url).statusOf = some 401 ∧
      (buildBlockResult "license_token_expired" url).headerVal "WWW-Authenticate" =
        some "License error=\"invalid_token\", error_description=\"The license token has expired\"") ∧
    ((buildBlockResult "license_signature_verification_failed" url).statusOf = some 401 ∧
      (buildBlockResult "license_signature_verification_failed" url).headerVal "WWW-Authenticate" =
        some "License error=\"invalid_token\", error_description=\"The license token signature is invalid\"") ∧
    ((buildBlockResult "invalid_license_header" url).statusOf = some 401 ∧
      (buildBlockResult "invalid_license_header" url).headerVal "WWW-Authenticate" =
        some "License error=\"invalid_token\", error_description=\"The license token header is malformed\"") ∧
    ((buildBlockResult "invalid_license_payload" url).statusOf = some 401 ∧
      (buildBlockResult "invalid_license_payload" url).headerVal "WWW-Authenticate" =
        some "License error=\"invalid_token\", error_description=\"The license token payload is malformed\"") ∧
    ((buildBlockResult "invalid_license_issuer" url).statusOf = some 401 ∧
      (buildBlockResult "invalid_license_issuer" url).headerVal "WWW-Authenticate" =
        some "License error=\"invalid_token\", error_description=\"The license token issuer is not recognized\"") ∧
    ((buildBlockResult "invalid_license_audience" url).statusOf = some 403 ∧
      (buildBlockResult "invalid_license_audience" url).headerVal "WWW-Authenticate" =
        some "License error=\"insufficient_scope\", error_description=\"The license does not grant access to this resource\"") ∧
    ((buildBlockResult "server_error" url).statusOf = some 503 ∧
      (buildBlockResult "server_error" url).headerVal "WWW-Authenticate" =
        some "License error=\"server_error\", error_description=\"The server encountered an error validating the license\"") ∧
    (∀ s : String, s ∉ (LicenseTokenInvalidReason.MISSING_TOKEN ::
          [LicenseTokenInvalidReason.INVALID_HEADER, .INVALID_ALG, .INVALID_PAYLOAD,
           .INVALID_ISSUER, .SIGNATURE_VERIFICATION_FAILED, .EXPIRED,
           .INVALID_AUDIENCE, .SERVER_ERROR]).map reasonValue →
      (buildBlockResult s url).statusOf = some 401 ∧
      (buildBlockResult s url).headerVal "WWW-Authenticate" =
        some "License error=\"invalid_token\", error_description=\"License token missing, expired, revoked, or malformed\"") := by
  refine ⟨⟨rfl, rfl⟩, ⟨rfl, rfl⟩, ⟨rfl, rfl⟩, ⟨rfl, rfl⟩, ⟨rfl, rfl⟩,
    ⟨rfl, rfl⟩, ⟨rfl, rfl⟩, ⟨rfl, rfl⟩, ⟨rfl, rfl⟩, ?_⟩
  intro s hs
  simp [reasonValue] at hs
  obtain ⟨h1, h2, h3, h4, h5, h6, h7, h8, h9⟩ := hs
  constructor
  · simp [buildBlockResult, HandlerResult.statusOf, h1, h2, h3, h4, h5, h6, h7, h8, h9]
  · simp [buildBlockResult, HandlerResult.headerVal, h1, h2, h3, h4, h5, h6, h7, h8, h9]

theorem c6_witness :
    (buildBlockResult "no_such_reason" "https://site.example/page").statusOf = some 401 :=
  ((c6_response_table "https://site.example/page").2.2.2.2.2.2.2.2.2
    "no_such_reason" (by decide)).1

/-- Claim C10: any audience candidate that normalizes to the empty string
after whitespace trimming and trailing-slash stripping is rejected — even
though the empty string leads every URL — so a token whose audience
candidates all normalize to the empty string fails with InvalidAudience
for every request URL. -/
theorem c10_empty_audience_rejected (t : TokenModel)
    (requestUrl supertabBaseUrl : String) (jwksFetch : Except String Jwks)
    (sigVerify : Jwk → SigOutcome) (h : JWTHeader) (p : JWTPayload)
    (hraw : t.raw ≠ "") (hhd : t.header = some h) (halg : h.alg = "ES256")
    (hp : t.payload = some p) (hiss : issuerAccepted p.iss supertabBaseUrl = true)
    (hall : ∀ v ∈ audienceValues p.aud, stripTrailingSlash v = "") :
    (∀ s : String, strStarts s "" = true) ∧
    verifyLicenseToken t requestUrl supertabBaseUrl jwksFetch sigVerify =
      .invalid .INVALID_AUDIENCE p.license_id := by
  refine ⟨strStarts_empty, ?_⟩
  have haud : audienceMatches p.aud requestUrl = false := by
    unfold audienceMatches
    rw [List.any_eq_false]
    intro v hv
    rw [if_pos (hall v hv)]
    exact Bool.false_ne_true
  simp [verifyLicenseToken, hraw, hhd, halg, hp, hiss, haud]

def tokEmptyAud : TokenModel :=
  { raw := "t",
    header := some { alg := "ES256", kid := some "k1" },
    payload := some { iss := some "https://api-connect.supertab.co",
                      aud := .arr [.str "", .str "/", .str "///", .str " / ", .nonString],
                      license_id := some "L1" } }

theorem c10_witness :
    verifyLicenseToken tokEmptyAud "https://site.example/page"
        "https://api-connect.supertab.co"
        (.ok { keys := [{ kid := some "k1" }] }) sigAlwaysOk =
      .invalid .INVALID_AUDIENCE (some "L1") :=
  (c10_empty_audience_rejected tokEmptyAud "https://site.example/page"
    "https://api-connect.supertab.co" (.ok { keys := [{ kid := some "k1" }] })
    sigAlwaysOk { alg := "ES256", kid := some "k1" }
    { iss := some "https://api-connect.supertab.co",
      aud := .arr [.str "", .str "/", .str "///", .str " / ", .nonString],
      license_id := some "L1" }
    (by decide) rfl rfl rfl (by decide) (by decide)).2

/-- Claim C8 counterexample: the claim says the audience check succeeds
exactly when some candidate, after trailing-slash trimming, is a prefix of
the trimmed request URL.  The candidate "/" trims to "", which is a prefix
of every URL, yet the code rejects the token with InvalidAudience — so the
claimed biconditional is false at this input. -/
theorem c8_counterexample :
    (∃ v ∈ audienceValues (AudClaim.single "/"),
      strStarts (stripTrailingSlash "https://site.example/x")
        (stripTrailingSlash v) = true) ∧
    verifyLicenseToken
        { raw := "t",
          header := some { alg := "ES256", kid := some "k1" },
          payload := some { iss := some "https://api-connect.supertab.co",
                            aud := .single "/", license_id := some "L1" } }
        "https://site.example/x" "https://api-connect.supertab.co"
        (.ok { keys := [{ kid := some "k1" }] }) sigAlwaysOk =
      .invalid .INVALID_AUDIENCE (some "L1") := by
  constructor
  · exact ⟨"/", by decide, by decide⟩
  · decide

/-- Claim C8 (amended): the audience check succeeds exactly when at least
one string candidate normalizes, by whitespace trimming and trailing-slash
stripping, to a NONEMPTY string that is a prefix of the trimmed request
URL; with no such candidate (including an absent audience field, an
audience with no strings, or candidates that normalize to the empty
string) the result is InvalidAudience. -/
theorem c8_audience_prefix_match (t : TokenModel)
    (requestUrl supertabBaseUrl : String) (jwksFetch : Except String Jwks)
    (sigVerify : Jwk → SigOutcome) (h : JWTHeader) (p : JWTPayload)
    (hraw : t.raw ≠ "") (hhd : t.header = some h) (halg : h.alg = "ES256")
    (hp : t.payload = some p) (hiss : issuerAccepted p.iss supertabBaseUrl = true) :
    verifyLicenseToken t requestUrl supertabBaseUrl jwksFetch sigVerify =
        .invalid .INVALID_AUDIENCE p.license_id ↔
      ¬ ∃ v ∈ audienceValues p.aud, stripTrailingSlash v ≠ "" ∧
          strStarts (stripTrailingSlash requestUrl) (stripTrailingSlash v) = true := by
  by_cases hm : audienceMatches p.aud requestUrl = true
  · refine iff_of_false ?_ ?_
    · intro hcontra
      rcases jwksFetch with message | jwks
      · simp [verifyLicenseToken, hraw, hhd, halg, hp, hiss, hm] at hcontra
      · rcases hfind : jwks.keys.find? (fun key => key.kid == h.kid) with _ | jwk
        · cases hinc : strIncl ("No matching platform key found: " ++ kidText h.kid) "exp" <;>
            simp [verifyLicenseToken, hraw, hhd, halg, hp, hiss, hm, hfind,
              classifyVerifyError, hinc] at hcontra
        · rcases hsig : sigVerify jwk with vp | message
          · simp [verifyLicenseToken, hraw, hhd, halg, hp, hiss, hm, hfind,
              hsig] at hcontra
          · cases hinc : strIncl message "exp" <;>
              simp [verifyLicenseToken, hraw, hhd, halg, hp, hiss, hm, hfind,
                hsig, classifyVerifyError, hinc] at hcontra
    · simp only [not_not]
      exact (audienceMatches_iff p.aud requestUrl).mp hm
  · have hm' : audienceMatches p.aud requestUrl = false := by
      cases hb : audienceMatches p.aud requestUrl
      · rfl
      · exact absurd hb hm
    refine iff_of_true ?_ ?_
    · simp [verifyLicenseToken, hraw, hhd, halg, hp, hiss, hm']
    · intro hex
      exact hm ((audienceMatches_iff p.aud requestUrl).mpr hex)

theorem c8_witness :
    verifyLicenseToken tokWellFormed "https://unrelated.example/a"
        "https://api-connect.supertab.co"
        (.ok { keys := [{ kid := some "k1" }] }) sigAlwaysOk =
      .invalid .INVALID_AUDIENCE (some "L1") :=
  (c8_audience_prefix_match tokWellFormed "https://unrelated.example/a"
    "https://api-connect.supertab.co" (.ok { keys := [{ kid := some "k1" }] })
    sigAlwaysOk { alg := "ES256", kid := some "k1" }
    { iss := some "https://api-connect.supertab.co/issuer",
      aud := .single "https://site.example", license_id := some "L1" }
    (by decide) rfl rfl rfl (by decide)).mpr (by decide)

/-- Claim C3: when the Authorization header carries a (nonempty) License
token, handleRequest never consults the bot detector; in Disabled mode it
allows without invoking verification, and in every other mode it invokes
verification and allows exactly when verification succeeds, blocking
otherwise. -/
theorem c3_token_present_always_validated (enforcement : EnforcementMode)
    (botDetector : Option (RequestModel → Bool)) (req : RequestModel)
    (verifyOutcome : VerifyOutcome) (htok : licenseTokenPresent req = true) :
    (handleRequest enforcement botDetector req verifyOutcome).botDetectorInvoked
        = false ∧
    (enforcement = .DISABLED →
      handleRequest enforcement botDetector req verifyOutcome =
        { result := .allow [], verifyInvoked := false, botDetectorInvoked := false }) ∧
    (enforcement ≠ .DISABLED →
      (handleRequest enforcement botDetector req verifyOutcome).verifyInvoked = true ∧
      ((handleRequest enforcement botDetector req verifyOutcome).result.isAllow = true ↔
        verifyOutcome = .ok)) := by
  cases enforcement <;> cases verifyOutcome <;>
    simp [handleRequest, htok, buildBlockResultDescribed, HandlerResult.isAllow]

def reqWithToken : RequestModel :=
  { authorizationHeader := some "License abc.def.ghi",
    url := "https://site.example/page",
    userAgentHeader := some "TestBot/1.0",
    acceptHeader := some "text/html",
    secChUaHeader := none,
    acceptLanguageHeader := some "en",
    cfBotScore := none }

theorem c3_witness :
    (handleRequest .STRICT (some defaultBotDetector) reqWithToken
        (.bad "license_token_expired" "The license token has expired")).botDetectorInvoked
      = false ∧
    (handleRequest .STRICT (some defaultBotDetector) reqWithToken
        (.bad "license_token_expired" "The license token has expired")).verifyInvoked
      = true :=
  have h := c3_token_present_always_validated .STRICT (some defaultBotDetector)
    reqWithToken (.bad "license_token_expired" "The license token has expired")
    (by decide)
  ⟨h.1, (h.2.2 (by decide)).1⟩

/-- Claim C5 counterexample: a no-token request that the default heuristic
flags as a bot (all signal headers absent), with no host-supplied detector
and Strict enforcement.  The claim says the default heuristic is consulted
and the request is blocked with the MissingToken classification; the code
never falls back to the default heuristic and allows the request. -/
theorem c5_counterexample :
    defaultBotDetector
        { authorizationHeader := none, url := "https://site.example/page",
          userAgentHeader := none, acceptHeader := none, secChUaHeader := none,
          acceptLanguageHeader := none, cfBotScore := none } = true ∧
    (handleRequest .STRICT none
        { authorizationHeader := none, url := "https://site.example/page",
          userAgentHeader := none, acceptHeader := none, secChUaHeader := none,
          acceptLanguageHeader := none, cfBotScore := none }
        .ok).result.isAllow = true ∧
    (handleRequest .STRICT none
        { authorizationHeader := none, url := "https://site.example/page",
          userAgentHeader := none, acceptHeader := none, secChUaHeader := none,
          acceptLanguageHeader := none, cfBotScore := none }
        .ok).botDetectorInvoked = false := by
  refine ⟨by decide, by decide, by decide⟩

/-- Claim C5 (amended): on a no-token request, handleRequest consults the
host-supplied bot-detection predicate when one is configured; when none is
configured the request is treated as non-bot (the default heuristic is NOT
applied).  If the request is not flagged as a bot the result is Allow with
no verification and no event; if it is flagged, Strict mode blocks with
the MissingToken classification, Soft mode returns the advisory Signal
response, and Disabled mode allows. -/
theorem c5_no_token_enforcement (enforcement : EnforcementMode)
    (botDetector : Option (RequestModel → Bool)) (req : RequestModel)
    (verifyOutcome : VerifyOutcome) (htok : licenseTokenPresent req = false) :
    (handleRequest enforcement botDetector req verifyOutcome).verifyInvoked = false ∧
    (botDetector = none →
      handleRequest enforcement botDetector req verifyOutcome =
        { result := .allow [], verifyInvoked := false, botDetectorInvoked := false }) ∧
    (∀ f, botDetector = some f →
      (handleRequest enforcement botDetector req verifyOutcome).botDetectorInvoked
          = true ∧
      (f req = false →
        (handleRequest enforcement botDetector req verifyOutcome).result =
          .allow []) ∧
      (f req = true →
        (enforcement = .STRICT →
          (handleRequest enforcement botDetector req verifyOutcome).result =
            buildBlockResultDescribed "missing_license_token"
              "Authorization header missing or malformed" req.url) ∧
        (enforcement = .SOFT →
          (handleRequest enforcement botDetector req verifyOutcome).result =
            buildSignalResult req.url) ∧
        (enforcement = .DISABLED →
          (handleRequest enforcement botDetector req verifyOutcome).result =
            .allow []))) := by
  refine ⟨?_, ?_, ?_⟩
  · rcases botDetector with _ | f
    · simp [handleRequest, htok]
    · cases hb : f req <;> cases enforcement <;> simp [handleRequest, htok, hb]
  · rintro rfl
    simp [handleRequest, htok]
  · rintro f rfl
    refine ⟨?_, ?_, ?_⟩
    · cases hb : f req <;> cases enforcement <;> simp [handleRequest, htok, hb]
    · intro hb
      simp [handleRequest, htok, hb]
    · intro hb
      refine ⟨?_, ?_, ?_⟩ <;> rintro rfl <;> simp [handleRequest, htok, hb]

def reqNoToken : RequestModel :=
  { authorizationHeader := none,
    url := "https://site.example/page",
    userAgentHeader := some "curl/8.0",
    acceptHeader := none,
    secChUaHeader := none,
    acceptLanguageHeader := none,
    cfBotScore := none }

theorem c5_witness :
    (handleRequest .STRICT (some defaultBotDetector) reqNoToken .ok).result =
      buildBlockResultDescribed "missing_license_token"
        "Authorization header missing or malformed" "https://site.example/page" :=
  have h := c5_no_token_enforcement .STRICT (some defaultBotDetector)
    reqNoToken .ok (by decide)
  ((((h.2.2 defaultBotDetector rfl).2.2) (by decide)).1 rfl)

/-- Scanner for the quoted-string escaping discipline: reading left to
right (inEsc records whether the previous character was an unconsumed
backslash), every double quote must be preceded by a backslash and no
trailing backslash may remain. -/
def escOkAux (inEsc : Bool) : List Char → Bool
  | [] => !inEsc
  | c :: rest =>
    if inEsc then escOkAux false rest
    else if c = '\\' then escOkAux true rest
    else if c = '"' then false
    else escOkAux false rest

/-- The escaping pass always yields a well-escaped character list. -/
theorem escOkAux_escapeChars (m : List Char) :
    escOkAux false (escapeChars m) = true := by
  induction m with
  | nil => rfl
  | cons c rest ih =>
    by_cases h1 : c = '\\'
    · subst h1
      simp [escapeChars, escOkAux, ih]
    · by_cases h2 : c = '"'
      · subst h2
        simp [escapeChars, escOkAux, ih]
      · simp [escapeChars, escOkAux, h1, h2, ih]

/-- Characters of the escaped list come from the input or are the added
backslashes. -/
theorem mem_escapeChars (m : List Char) (c : Char) (hc : c ∈ escapeChars m) :
    c ∈ m ∨ c = '\\' := by
  induction m with
  | nil => simp [escapeChars] at hc
  | cons d rest ih =>
    by_cases hd : d = '\\' ∨ d = '"'
    · rw [escapeChars, if_pos hd] at hc
      rcases List.mem_cons.mp hc with h | hc2
      · exact Or.inr h
      · rcases List.mem_cons.mp hc2 with h | hc3
        · exact Or.inl (by simp [h])
        · rcases ih hc3 with h | h
          · exact Or.inl (List.mem_cons_of_mem d h)
          · exact Or.inr h
    · rw [escapeChars, if_neg hd] at hc
      rcases List.mem_cons.mp hc with h | hc2
      · exact Or.inl (by simp [h])
      · rcases ih hc2 with h | h
        · exact Or.inl (List.mem_cons_of_mem d h)
        · exact Or.inr h

/-- The sanitized description contains no CR and no LF. -/
theorem sanitize_no_crlf (s : String) (c : Char)
    (hc : c ∈ (sanitizeHeaderText s).toList) : c ≠ '\r' ∧ c ≠ '\n' := by
  have hc' : c ∈ escapeChars (stripCRLFList s.toList) := hc
  rcases mem_escapeChars _ c hc' with h | h
  · rw [stripCRLFList, List.mem_filter] at h
    have := h.2
    simp only [Bool.and_eq_true, bne_iff_ne] at this
    exact this
  · subst h
    exact ⟨by decide, by decide⟩

/-- String append concatenates the character lists. -/
theorem strToList_append (a b : String) :
    (a ++ b).toList = a.toList ++ b.toList := rfl

set_option maxHeartbeats 1000000 in
/-- Claim C2: for every failure reason and every description string
(including descriptions containing CR, LF, backslash or double quote), the
modelled block response carries a WWW-Authenticate value built from one of
the four fixed machine error codes and the sanitized description; the value
contains no CR or LF anywhere, and the interpolated description region is
well escaped (every quote and backslash of the original is
backslash-escaped, so it cannot break the quoted-string grammar). -/
theorem c2_header_sanitization (reason description requestUrl : String) :
    ∃ code,
      (code = "invalid_request" ∨ code = "invalid_token" ∨
        code = "insufficient_scope" ∨ code = "server_error") ∧
      (buildBlockResultDescribed reason description requestUrl).headerVal
          "WWW-Authenticate" =
        some ("License error=\"" ++ code ++ "\", error_description=\""
          ++ sanitizeHeaderText description ++ "\"") ∧
      (∀ c ∈ ("License error=\"" ++ code ++ "\", error_description=\""
          ++ sanitizeHeaderText description ++ "\"").toList,
        c ≠ '\r' ∧ c ≠ '\n') ∧
      escOkAux false (sanitizeHeaderText description).toList = true := by
  refine ⟨(blockStatusCode reason).2, ?_, ?_, ?_, escOkAux_escapeChars _⟩
  · unfold blockStatusCode
    split_ifs <;> simp
  · simp [buildBlockResultDescribed, HandlerResult.headerVal]
  · intro c hc
    simp only [strToList_append] at hc
    have hcode : ∀ d ∈ (blockStatusCode reason).2.toList, d ≠ '\r' ∧ d ≠ '\n' := by
      unfold blockStatusCode
      split_ifs <;> decide
    have hA : ∀ d ∈ ("License error=\"" : String).toList, d ≠ '\r' ∧ d ≠ '\n' := by
      decide
    have hB : ∀ d ∈ ("\", error_description=\"" : String).toList,
        d ≠ '\r' ∧ d ≠ '\n' := by
      decide
    have hC : ∀ d ∈ ("\"" : String).toList, d ≠ '\r' ∧ d ≠ '\n' := by
      decide
    rcases List.mem_append.mp hc with hc1 | hcC
    · rcases List.mem_append.mp hc1 with hc2 | hcS
      · rcases List.mem_append.mp hc2 with hc3 | hcB
        · rcases List.mem_append.mp hc3 with hcA | hccode
          · exact hA c hcA
          · exact hcode c hccode
        · exact hB c hcB
      · exact sanitize_no_crlf description c hcS
    · exact hC c hcC

/-- Claim C9: a key set stored at time T under a cache key is returned
verbatim, without invoking the fetch, by every get-or-fetch call strictly
before T + TTL (TTL = 48 hours), and the cache is left untouched; a call
at or after T + TTL invokes the fetch and, on success, wholesale-replaces
the entry with the new key set and the current timestamp.  The entry is
used as fresh exactly when now - cachedAt < TTL. -/
theorem c9_cache_ttl (cache : JwksCacheState) (key : String) (data : Jwks)
    (T now : Nat) (fetchResult : Except String Jwks)
    (hentry : cacheGet cache key = some { data := data, cachedAt := T }) :
    ((fetchAndCacheJwks cache key now fetchResult).fetchInvoked = false ↔
      now - T < JWKS_CACHE_TTL_MS) ∧
    (now < T + JWKS_CACHE_TTL_MS →
      fetchAndCacheJwks cache key now fetchResult =
        { outcome := .ok data, cache := cache, fetchInvoked := false }) ∧
    (T + JWKS_CACHE_TTL_MS ≤ now →
      (fetchAndCacheJwks cache key now fetchResult).fetchInvoked = true ∧
      ∀ newData, fetchResult = .ok newData →
        fetchAndCacheJwks cache key now fetchResult =
          { outcome := .ok newData,
            cache := cacheSet cache key { data := newData, cachedAt := now },
            fetchInvoked := true }) := by
  refine ⟨?_, ?_, ?_⟩
  · by_cases hfresh : now - T < JWKS_CACHE_TTL_MS
    · simp [fetchAndCacheJwks, hentry, hfresh]
    · rcases fetchResult with e | d <;>
        simp [fetchAndCacheJwks, hentry, hfresh]
  · intro hlt
    have hfresh : now - T < JWKS_CACHE_TTL_MS := by
      simp only [JWKS_CACHE_TTL_MS] at hlt ⊢
      omega
    simp [fetchAndCacheJwks, hentry, hfresh]
  · intro hge
    have hstale : ¬ now - T < JWKS_CACHE_TTL_MS := by
      simp only [JWKS_CACHE_TTL_MS] at hge ⊢
      omega
    constructor
    · rcases fetchResult with e | d <;>
        simp [fetchAndCacheJwks, hentry, hstale]
    · rintro newData rfl
      simp [fetchAndCacheJwks, hentry, hstale]

def jwksOld : Jwks := { keys := [{ kid := some "k1" }] }

def jwksNew : Jwks := { keys := [{ kid := some "k2" }] }

theorem c9_witness :
    fetchAndCacheJwks [("platform_jwks", { data := jwksOld, cachedAt := 1000 })]
        "platform_jwks" (1000 + JWKS_CACHE_TTL_MS - 1) (.ok jwksNew) =
      { outcome := .ok jwksOld,
        cache := [("platform_jwks", { data := jwksOld, cachedAt := 1000 })],
        fetchInvoked := false } ∧
    fetchAndCacheJwks [("platform_jwks", { data := jwksOld, cachedAt := 1000 })]
        "platform_jwks" (1000 + JWKS_CACHE_TTL_MS + 1) (.ok jwksNew) =
      { outcome := .ok jwksNew,
        cache :=
          [("platform_jwks",
            { data := jwksNew, cachedAt := 1000 + JWKS_CACHE_TTL_MS + 1 })],
        fetchInvoked := true } :=
  ⟨(c9_cache_ttl [("platform_jwks", { data := jwksOld, cachedAt := 1000 })]
      "platform_jwks" jwksOld 1000 (1000 + JWKS_CACHE_TTL_MS - 1)
      (.ok jwksNew) rfl).2.1 (by decide),
   ((c9_cache_ttl [("platform_jwks", { data := jwksOld, cachedAt := 1000 })]
      "platform_jwks" jwksOld 1000 (1000 + JWKS_CACHE_TTL_MS + 1)
      (.ok jwksNew) rfl).2.2 (by decide)).2 jwksNew rfl⟩

/-- Claim C1: whenever the first attempt fails because the (fresh) cached
key set lacks the token header's kid — the key-not-found condition — the
modelled signature stage invalidates the whole key-set cache, refetches,
and retries exactly once (two attempts in total), for EVERY outcome of the
retry: a failing refetch gives ServerError with the cache left empty
(invalidated); a refetched key set still lacking the kid gives
SignatureVerificationFailed; a found key hands over to the cryptographic
verification, whose error is classified as usual; and in every refetch
success the cache afterwards holds exactly the refreshed key set stamped
with the current time — in particular, when the fresh post-invalidate
fetch contains the kid and the signature verifies, the overall result is
valid. -/
theorem c1_stale_key_retry (cache : JwksCacheState) (now T : Nat)
    (licenseId kid : Option String) (staleJwks : Jwks)
    (fetch1 : Except String Jwks)
    (hcached : cacheGet cache "platform_jwks" =
      some { data := staleJwks, cachedAt := T })
    (hfresh : now - T < JWKS_CACHE_TTL_MS)
    (hmiss : staleJwks.keys.find? (fun key => key.kid == kid) = none) :
    (∀ (fetch2 : Except String Jwks) (sigVerify : Jwk → SigOutcome),
      (verifySignatureWithRetry cache now licenseId kid fetch1 fetch2
        sigVerify).attempts = 2) ∧
    (∀ (e : String) (sigVerify : Jwk → SigOutcome),
      verifySignatureWithRetry cache now licenseId kid fetch1 (.error e)
          sigVerify =
        { result := .invalid .SERVER_ERROR licenseId, cache := [],
          attempts := 2 }) ∧
    (∀ (freshJwks : Jwks) (sigVerify : Jwk → SigOutcome),
      (verifySignatureWithRetry cache now licenseId kid fetch1 (.ok freshJwks)
          sigVerify).cache =
        [("platform_jwks", { data := freshJwks, cachedAt := now })] ∧
      (freshJwks.keys.find? (fun key => key.kid == kid) = none →
        verifySignatureWithRetry cache now licenseId kid fetch1 (.ok freshJwks)
            sigVerify =
          { result := .invalid .SIGNATURE_VERIFICATION_FAILED licenseId,
            cache := [("platform_jwks", { data := freshJwks, cachedAt := now })],
            attempts := 2 }) ∧
      (∀ jwk, freshJwks.keys.find? (fun key => key.kid == kid) = some jwk →
        (∀ vp, sigVerify jwk = .ok vp →
          verifySignatureWithRetry cache now licenseId kid fetch1
              (.ok freshJwks) sigVerify =
            { result := .valid licenseId vp,
              cache := [("platform_jwks", { data := freshJwks, cachedAt := now })],
              attempts := 2 }) ∧
        (∀ message, sigVerify jwk = .err message →
          verifySignatureWithRetry cache now licenseId kid fetch1
              (.ok freshJwks) sigVerify =
            { result := classifyVerifyError message licenseId,
              cache := [("platform_jwks", { data := freshJwks, cachedAt := now })],
              attempts := 2 }))) := by
  have h1 : ∀ sigVerify : Jwk → SigOutcome,
      verifyAttempt cache now kid fetch1 sigVerify = (.keyNotFound kid, cache) := by
    intro sigVerify
    simp [verifyAttempt, fetchAndCacheJwks, hcached, hfresh, hmiss]
  refine ⟨?_, ?_, ?_⟩
  · intro fetch2 sigVerify
    rw [verifySignatureWithRetry, h1 sigVerify]
  · intro e sigVerify
    rw [verifySignatureWithRetry, h1 sigVerify]
    simp [verifyAttempt, fetchAndCacheJwks, clearJwksCache, cacheGet,
      classifyAttempt]
  · intro freshJwks sigVerify
    refine ⟨?_, ?_, ?_⟩
    · rw [verifySignatureWithRetry, h1 sigVerify]
      rcases hf : freshJwks.keys.find? (fun key => key.kid == kid) with _ | jwk
      · simp [verifyAttempt, fetchAndCacheJwks, clearJwksCache, cacheGet,
          cacheSet, hf]
      · rcases hs : sigVerify jwk with vp | message <;>
          simp [verifyAttempt, fetchAndCacheJwks, clearJwksCache, cacheGet,
            cacheSet, hf, hs]
    · intro hf
      rw [verifySignatureWithRetry, h1 sigVerify]
      simp [verifyAttempt, fetchAndCacheJwks, clearJwksCache, cacheGet,
        cacheSet, hf, classifyAttempt]
    · intro jwk hf
      constructor
      · intro vp hs
        rw [verifySignatureWithRetry, h1 sigVerify]
        simp [verifyAttempt, fetchAndCacheJwks, clearJwksCache, cacheGet,
          cacheSet, hf, hs, classifyAttempt]
      · intro message hs
        rw [verifySignatureWithRetry, h1 sigVerify]
        simp [verifyAttempt, fetchAndCacheJwks, clearJwksCache, cacheGet,
          cacheSet, hf, hs, classifyAttempt]

theorem c1_witness :
    verifySignatureWithRetry
        [("platform_jwks", { data := jwksOld, cachedAt := 1000 })]
        2000 (some "L1") (some "k2") (.ok jwksOld) (.error "jwks endpoint down")
        sigAlwaysOk =
      { result := .invalid .SERVER_ERROR (some "L1"), cache := [],
        attempts := 2 } ∧
    verifySignatureWithRetry
        [("platform_jwks", { data := jwksOld, cachedAt := 1000 })]
        2000 (some "L1") (some "k2") (.ok jwksOld) (.ok jwksNew) sigAlwaysOk =
      { result := .valid (some "L1")
          { iss := none, aud := .absent, license_id := none },
        cache := [("platform_jwks", { data := jwksNew, cachedAt := 2000 })],
        attempts := 2 } :=
  have h := c1_stale_key_retry
    [("platform_jwks", { data := jwksOld, cachedAt := 1000 })]
    2000 1000 (some "L1") (some "k2") jwksOld (.ok jwksOld)
    rfl (by decide) (by decide)
  ⟨h.2.1 "jwks endpoint down" sigAlwaysOk,
   (((h.2.2 jwksNew sigAlwaysOk).2.2 { kid := some "k2" } (by decide)).1
     { iss := none, aud := .absent, license_id := none } rfl)⟩

end ConnectSdk
